import Mathlib

set_option linter.unusedVariables false

/-!
Shallow embedding of the wallet-kit per-network template sources:
  src/templates/blockchain/BR__Name__Address.c
  src/templates/handlers/WKNetwork__SYMBOL__.c
  src/templates/handlers/WKWalletManager__SYMBOL__.c
Pure C functions become Lean functions; the wallet mutated by the transfer
reconciler becomes explicit state passing (the reconciler returns the new
wallet).  Machine integers are modelled as Nat (with `% 2 ^ 64` where the C
code reads a `uint64_t`).  A C function that can return NULL returns an
Option.  External collaborators whose code is not under src/ (wallet lookup
and insertion, transfer creation, the fee-basis record, hash decoding) are
modelled from the spec and carry a doc comment saying so.

The macro ASSERT_UNIMPLEMENTED is defined outside src/; per the spec
(sections 7 and 9: the encoding paths are stubbed and "there is no
fatal/process-terminating error in this core") it is modelled as a non-fatal
marker, so the surrounding C function simply returns the value it returns
after the macro (NULL).  The literal `assert(0)` calls in
WKWalletManager__SYMBOL__.c are, by contrast, modelled explicitly by an
`assertionFailed` flag on the result of the handlers that contain them.
-/

/-! ### Address codec: src/templates/blockchain/BR__Name__Address.c -/

/-- `#define __NAME___ADDRESS_BYTES (1)`: the address payload is one byte,
modelled as a single Nat below 256. -/
def ADDRESS_BYTES : Nat := 1

/-- `static uint8_t feeAddressBytes[1] = { 0 }` -/
def feeAddressBytes : Nat := 0

/-- `static uint8_t unknownAddressBytes[1] = { 0 }` -/
def unknownAddressBytes : Nat := 0

/-- `struct BR__Name__AddressRecord { uint8_t bytes[1]; }` -/
structure BR__Name__Address where
  bytes : Nat
  deriving DecidableEq

/-- `__name__AddressCreateFeeAddress`: payload copied from `feeAddressBytes`. -/
def __name__AddressCreateFeeAddress : BR__Name__Address :=
  { bytes := feeAddressBytes }

/-- `__name__AddressCreateUnknownAddress`: payload copied from
`unknownAddressBytes`. -/
def __name__AddressCreateUnknownAddress : BR__Name__Address :=
  { bytes := unknownAddressBytes }

/-- `__name__AddressIsFeeAddress`: memcmp of the payload against
`feeAddressBytes`. -/
def __name__AddressIsFeeAddress (address : BR__Name__Address) : Bool :=
  address.bytes == feeAddressBytes

/-- `__name__AddressIsUnknownAddress`: memcmp of the payload against
`unknownAddressBytes`. -/
def __name__AddressIsUnknownAddress (address : BR__Name__Address) : Bool :=
  address.bytes == unknownAddressBytes

/-- `__name__AddressAsString`: the fee sentinel renders as "__fee__", the
unknown sentinel as "unknown"; any other payload reaches
ASSERT_UNIMPLEMENTED and the string stays NULL (`none`). -/
def __name__AddressAsString (address : BR__Name__Address) : Option String :=
  if __name__AddressIsFeeAddress address then
    some "__fee__"
  else if __name__AddressIsUnknownAddress address then
    some "unknown"
  else
    none

/-- `__name__AddressStringToAddress` (static): the body is
ASSERT_UNIMPLEMENTED followed by `return NULL`, so every input yields no
address. -/
def __name__AddressStringToAddress (input : String) : Option BR__Name__Address :=
  none

/-- `__name__AddressCreateFromString(addressString, strict)`: NULL or empty
text yields NULL in strict mode and the unknown sentinel otherwise; strict
mode otherwise defers to `__name__AddressStringToAddress`; non-strict mode
recognises the literal tokens "unknown" and "__fee__" before deferring. -/
def __name__AddressCreateFromString (addressString : Option String) (strict : Bool) :
    Option BR__Name__Address :=
  match addressString with
  | none =>
      if strict then none else some __name__AddressCreateUnknownAddress
  | some s =>
      if s.length == 0 then
        (if strict then none else some __name__AddressCreateUnknownAddress)
      else if strict then
        __name__AddressStringToAddress s
      else if s == "unknown" then
        some __name__AddressCreateUnknownAddress
      else if s == "__fee__" then
        some __name__AddressCreateFeeAddress
      else
        __name__AddressStringToAddress s

/-- `__name__AddressEqual`: memcmp of the two payloads. -/
def __name__AddressEqual (a1 a2 : BR__Name__Address) : Bool :=
  a1.bytes == a2.bytes

/-! ### External object model consumed by the handlers

The WKUnit / WKAmount / WKFeeBasis / WKTransfer / WKWallet object model and
the BR__Name__FeeBasis / BR__Name__Transaction records live outside src/;
they are modelled from the spec (sections 3 and 6). -/

/-- Modelled from the spec: a currency unit, an opaque tag carried through
amounts and fee bases (WKUnit is external to this core). -/
structure WKUnit where
  name : String
  deriving DecidableEq

/-- Modelled from the spec: an amount is an integer value in a unit
(WKAmount is external to this core). -/
structure WKAmount where
  value : Int
  unit : WKUnit
  deriving DecidableEq

/-- `wkAmountCreateInteger (value, unit)` (external): the integer amount. -/
def wkAmountCreateInteger (value : Int) (unit : WKUnit) : WKAmount :=
  { value := value, unit := unit }

/-- Modelled from the spec (section 3): a fee basis has two lifecycle
stages, the default *initial* stage and the *refined* estimate carrying gas
limit, storage limit and the next counter value (BR__Name__FeeBasis.c is
not under src/). -/
inductive BR__Name__FeeBasis where
  | initial
  | estimate (gasLimit storageLimit counter : Nat)
  deriving DecidableEq

/-- Modelled from the spec: `__name__FeeBasisCreate()` builds the default
initial-stage fee basis. -/
def __name__FeeBasisCreate : BR__Name__FeeBasis := .initial

/-- The counter recorded in a fee basis, when it is in the refined stage. -/
def BR__Name__FeeBasis.counterValue : BR__Name__FeeBasis → Option Nat
  | .initial => none
  | .estimate _ _ c => some c

/-- `wkFeeBasisCreateAs__SYMBOL__ (unit, basis)` (external): wraps a
network fee basis with its unit. -/
structure WKFeeBasis where
  unit : WKUnit
  __symbol__FeeBasis : BR__Name__FeeBasis
  deriving DecidableEq

def wkFeeBasisCreateAs__SYMBOL__ (unit : WKUnit) (basis : BR__Name__FeeBasis) :
    WKFeeBasis :=
  { unit := unit, __symbol__FeeBasis := basis }

/-- Modelled from the spec (section 4.5 step 3): the transfer state is
derived from the bundle's status fields plus the fee basis
(wkClientTransferBundleGetTransferState is external to this core). -/
structure WKTransferState where
  status : String
  feeBasis : WKFeeBasis
  deriving DecidableEq

/-- Modelled from the spec (section 4.5 step 4): `__name__TransactionCreate`
builds a transaction from the decoded source/target (possibly NULL), the
amount and a fee basis (BR__Name__Transaction.c is not under src/). -/
structure BR__Name__Transaction where
  source : Option BR__Name__Address
  target : Option BR__Name__Address
  amount : Nat
  feeBasis : BR__Name__FeeBasis
  deriving DecidableEq

def __name__TransactionCreate (source target : Option BR__Name__Address)
    (amount : Nat) (feeBasis : BR__Name__FeeBasis) : BR__Name__Transaction :=
  { source := source, target := target, amount := amount, feeBasis := feeBasis }

/-- Modelled from the spec (sections 3 and 6): a wallet-level transfer,
identified by its remote `uids` and, once known, its hash; creation by
`wkTransferCreateAs__SYMBOL__` receives no hash, so a fresh transfer's hash
is absent until assigned externally. -/
structure WKTransfer where
  uids : String
  hash : Option String
  unit : WKUnit
  unitForFee : WKUnit
  state : WKTransferState
  __symbol__Transaction : BR__Name__Transaction
  deriving DecidableEq

/-- `wkTransferCreateAs__SYMBOL__ (listener, uids, unit, unitForFee, state,
account, transaction)` (external), modelled from the spec; the listener and
account handles carry no reconciliation state and are dropped. -/
def wkTransferCreateAs__SYMBOL__ (uids : String) (unit unitForFee : WKUnit)
    (state : WKTransferState) (transaction : BR__Name__Transaction) : WKTransfer :=
  { uids := uids, hash := none, unit := unit, unitForFee := unitForFee,
    state := state, __symbol__Transaction := transaction }

/-- Modelled from the spec (section 6): the wallet owns its transfer set,
its balance and its units (WKWallet is external to this core). -/
structure WKWallet where
  transfers : List WKTransfer
  balance : WKAmount
  unit : WKUnit
  unitForFee : WKUnit
  deriving DecidableEq

/-- `wkWalletGetBalance` (external): the wallet's current balance. -/
def wkWalletGetBalance (wallet : WKWallet) : WKAmount := wallet.balance

/-- Modelled from the spec (section 4.2): `wkHashCreateFromStringAs__SYMBOL__`
decodes hash text strictly — malformed (here: empty) input yields no hash,
any other text its decoded hash, one hash per text. -/
def wkHashCreateFromStringAs__SYMBOL__ (s : String) : Option String :=
  if s.length == 0 then none else some s

/-- Modelled from the spec (sections 4.5 step 2 and 6): a tracked transfer
matches a bundle when its hash equals the bundle's decoded hash (both
present) or its uids equals the bundle's uids. -/
def transferMatches (t : WKTransfer) (hash : Option String) (uids : String) : Bool :=
  (match t.hash, hash with
   | some th, some bh => th == bh
   | _, _ => false) || t.uids == uids

/-- Modelled from the spec (section 6):
`wkWalletGetTransferByHashOrUIDS (wallet, hash, uids)` returns the first
matching tracked transfer — here its index in the wallet's transfer list. -/
def wkWalletGetTransferByHashOrUIDS (transfers : List WKTransfer)
    (hash : Option String) (uids : String) : Option Nat :=
  match transfers with
  | [] => none
  | t :: rest =>
      if transferMatches t hash uids then some 0
      else (wkWalletGetTransferByHashOrUIDS rest hash uids).map (· + 1)

/-- The found branch of the reconciler: `wkTransferSetUids` and
`wkTransferSetState` (external) update the matched transfer in place. -/
def updateTransferAt (transfers : List WKTransfer) (i : Nat) (uids : String)
    (state : WKTransferState) : List WKTransfer :=
  match transfers, i with
  | [], _ => []
  | t :: rest, 0 => { t with uids := uids, state := state } :: rest
  | t :: rest, Nat.succ n => t :: updateTransferAt rest n uids state

/-- `WKClientTransferBundle` (external input, spec section 6 wire shape):
all numeric fields are decimal text; `fee`, `from` and `to` are C strings
that may be NULL (`fromAddress`/`toAddress` stand for the C fields
`from`/`to`, `from` being a Lean keyword). -/
structure WKClientTransferBundle where
  hash : String
  uids : String
  fromAddress : Option String
  toAddress : Option String
  amount : String
  fee : Option String
  status : String
  deriving DecidableEq

/-- Modelled from the spec (section 4.5 step 3):
`wkClientTransferBundleGetTransferState (bundle, feeBasis)` derives the
transfer state from the bundle's status fields plus the fee basis. -/
def wkClientTransferBundleGetTransferState (bundle : WKClientTransferBundle)
    (feeBasis : WKFeeBasis) : WKTransferState :=
  { status := bundle.status, feeBasis := feeBasis }

/-- Modelled from the spec (section 6): external attribute recovery
populates transfer metadata not covered by this core; on the reconciliation
state modelled here it is the identity. -/
def wkWalletManagerRecoverTransferAttributesFromTransferBundle
    (wallet : WKWallet) : WKWallet :=
  wallet

/-! ### Numeric text parsing (libc semantics used by the handlers) -/

/-- The longest leading run of decimal digits of a character list. -/
def scanDigits : List Char → List Char
  | [] => []
  | c :: cs => if c.isDigit then c :: scanDigits cs else []

/-- The value of a decimal digit list, accumulator style. -/
def digitsValue (acc : Nat) : List Char → Nat
  | [] => acc
  | c :: cs => digitsValue (10 * acc + (c.toNat - 48)) cs

/-- `sscanf(s, "%" PRIu64, &x)`: assigns only when the text starts with a
decimal number (`none` = no assignment, the C variable keeps its previous —
possibly indeterminate — value).  The value is read as a `uint64_t`. -/
def sscanfU64 (s : String) : Option Nat :=
  let ds := scanDigits s.data
  if ds.isEmpty then none else some (digitsValue 0 ds % 2 ^ 64)

/-- `strtoull(s, NULL, 0)`: the converted value of the leading number, 0
when no conversion is possible.  Decimal only: the base-0 hex/octal
prefixes, leading whitespace and signs are exercised by no theorem below. -/
def strtoull (s : String) : Nat :=
  digitsValue 0 (scanDigits s.data) % 2 ^ 64

/-! ### Handlers: src/templates/handlers/WKWalletManager__SYMBOL__.c and
src/templates/handlers/WKNetwork__SYMBOL__.c -/

/-- `cwmLookupAttributeValueForKey (key, count, keys, vals)`: the value at
the first index whose key matches case-insensitively (strcasecmp), NULL
when none does. -/
def cwmLookupAttributeValueForKey (key : String) (keys vals : List String) :
    Option String :=
  match keys, vals with
  | k :: restKeys, v :: restVals =>
      if k.toLower == key.toLower then some v
      else cwmLookupAttributeValueForKey key restKeys restVals
  | _, _ => none

/-- `cwmParseUInt64 (string, error)`: a NULL string sets `*error` and yields
0; otherwise strtoull's value, `*error` untouched (modelled by threading the
flag's previous value through). -/
def cwmParseUInt64 (string : Option String) (error : Bool) : Nat × Bool :=
  match string with
  | none => (0, true)
  | some s => (strtoull s, error)

/-- `wkWalletManagerRecoverTransferFromTransferBundle__SYMBOL__`: the
transfer reconciler.  The wallet is passed explicitly (the C code obtains it
through `wkWalletManagerGetWallet (manager)`) and returned updated;
`junkAmount` is the indeterminate value the uninitialized C variable
`__symbol__Amount` keeps when `sscanf` fails to parse `bundle->amount`. -/
def wkWalletManagerRecoverTransferFromTransferBundle__SYMBOL__
    (junkAmount : Nat) (wallet : WKWallet) (bundle : WKClientTransferBundle) :
    WKWallet :=
  let __symbol__Amount : Nat := (sscanfU64 bundle.amount).getD junkAmount
  let __symbol__Fee : Nat := (bundle.fee.bind sscanfU64).getD 0
  let __symbol__Target := __name__AddressCreateFromString bundle.toAddress false
  let __symbol__Source := __name__AddressCreateFromString bundle.fromAddress false
  let hash := wkHashCreateFromStringAs__SYMBOL__ bundle.hash
  let transferIndex := wkWalletGetTransferByHashOrUIDS wallet.transfers hash bundle.uids
  let __symbol__FeeBasis := __name__FeeBasisCreate
  let feeBasis := wkFeeBasisCreateAs__SYMBOL__ wallet.unitForFee __symbol__FeeBasis
  let state := wkClientTransferBundleGetTransferState bundle feeBasis
  let wallet' :=
    match transferIndex with
    | some i =>
        { wallet with transfers := updateTransferAt wallet.transfers i bundle.uids state }
    | none =>
        let __symbol__Transaction :=
          __name__TransactionCreate __symbol__Source __symbol__Target
            __symbol__Amount __symbol__FeeBasis
        let transfer :=
          wkTransferCreateAs__SYMBOL__ bundle.uids wallet.unit wallet.unitForFee
            state __symbol__Transaction
        { wallet with transfers := wallet.transfers ++ [transfer] }
  wkWalletManagerRecoverTransferAttributesFromTransferBundle wallet'

/-- `WKNetworkFee` (external): price per cost factor and its unit. -/
structure WKNetworkFee where
  pricePerCostFactor : Nat
  pricePerCostFactorUnit : WKUnit
  deriving DecidableEq

/-- `wkWalletManagerRecoverFeeBasisFromFeeEstimate__SYMBOL__`: the live code
(the attribute parsing sits in a disabled `#if 0` block) creates the default
fee basis and wraps it with the network fee's unit; the transfer, the
`double costUnits` and the attribute list are not used.  Total: there is no
error return. -/
def wkWalletManagerRecoverFeeBasisFromFeeEstimate__SYMBOL__
    (networkFee : WKNetworkFee) (attributeKeys attributeVals : List String) :
    WKFeeBasis :=
  wkFeeBasisCreateAs__SYMBOL__ networkFee.pricePerCostFactorUnit __name__FeeBasisCreate

/-- `wkWalletManagerEstimateLimit__SYMBOL__`: balance when `asMaximum`, the
integer amount 0 of `unit` otherwise.  The two output flags are modelled by
value passing: the result carries exactly the values the caller's variables
held before the call (the lone write `*needEstimate = asMaximum` sits in a
disabled `#if 0` block). -/
structure WKEstimateLimitResult where
  amount : WKAmount
  needEstimate : Bool
  isZeroIfInsuffientFunds : Bool
  deriving DecidableEq

def wkWalletManagerEstimateLimit__SYMBOL__ (wallet : WKWallet) (asMaximum : Bool)
    (needEstimate isZeroIfInsuffientFunds : Bool) (unit : WKUnit) :
    WKEstimateLimitResult :=
  { amount :=
      if asMaximum then wkWalletGetBalance wallet
      else wkAmountCreateInteger 0 unit,
    needEstimate := needEstimate,
    isZeroIfInsuffientFunds := isZeroIfInsuffientFunds }

/-- The result of a C handler that contains `assert` calls:
`assertionFailed` records whether a failing assertion is triggered on the
way to the returned value (the value is what an assert-disabled build
returns). -/
structure CResult (α : Type) where
  assertionFailed : Bool
  value : α
  deriving DecidableEq

/-- `WKWalletSweeperStatus` (external enumeration), the constants the
handler contract can return. -/
inductive WKWalletSweeperStatus where
  | success
  | unsupportedCurrency
  | illegalOperation
  deriving DecidableEq

/-- `WKKey` (external): an opaque key handle. -/
structure WKKey where
  id : Nat
  deriving DecidableEq

/-- `WKClientTransactionBundle` (external input), opaque to this handler. -/
structure WKClientTransactionBundle where
  uids : String
  deriving DecidableEq

/-- `wkWalletManagerSignTransactionWithKey__SYMBOL__`: the body is
`assert(0); return WK_FALSE;` — a failing assertion on every input. -/
def wkWalletManagerSignTransactionWithKey__SYMBOL__ (wallet : WKWallet)
    (transfer : WKTransfer) (key : WKKey) : CResult Bool :=
  { assertionFailed := true, value := false }

/-- `wkWalletManagerRecoverTransfersFromTransactionBundle__SYMBOL__`: the
body is `assert(0);` — a failing assertion on every input, no wallet
change. -/
def wkWalletManagerRecoverTransfersFromTransactionBundle__SYMBOL__
    (bundle : WKClientTransactionBundle) : CResult Unit :=
  { assertionFailed := true, value := () }

/-- `wkWalletManagerWalletSweeperValidateSupported__SYMBOL__`: returns
`WK_WALLET_SWEEPER_UNSUPPORTED_CURRENCY` on every input, no assertion. -/
def wkWalletManagerWalletSweeperValidateSupported__SYMBOL__ (wallet : WKWallet)
    (key : WKKey) : CResult WKWalletSweeperStatus :=
  { assertionFailed := false, value := .unsupportedCurrency }

/-- `wkNetworkEncodeHash__SYMBOL__`: the Base58 encoding sits in a disabled
`#if 0` block; the live code returns NULL for every hash. -/
def wkNetworkEncodeHash__SYMBOL__ (hash : String) : Option String :=
  none

/-! ### Abbreviations for the reconciler's intermediate values, and concrete
sample data for the closed instantiations below -/

/-- The hash the reconciler decodes from a bundle. -/
def bundleHash (bundle : WKClientTransferBundle) : Option String :=
  wkHashCreateFromStringAs__SYMBOL__ bundle.hash

/-- The transfer state the reconciler derives from a bundle against a
wallet: bundle status fields plus the default fee basis in the wallet's fee
unit. -/
def bundleState (wallet : WKWallet) (bundle : WKClientTransferBundle) :
    WKTransferState :=
  wkClientTransferBundleGetTransferState bundle
    (wkFeeBasisCreateAs__SYMBOL__ wallet.unitForFee __name__FeeBasisCreate)

/-- The fresh transfer the reconciler registers when the lookup finds no
match. -/
def bundleTransfer (junkAmount : Nat) (wallet : WKWallet)
    (bundle : WKClientTransferBundle) : WKTransfer :=
  wkTransferCreateAs__SYMBOL__ bundle.uids wallet.unit wallet.unitForFee
    (bundleState wallet bundle)
    (__name__TransactionCreate
      (__name__AddressCreateFromString bundle.fromAddress false)
      (__name__AddressCreateFromString bundle.toAddress false)
      ((sscanfU64 bundle.amount).getD junkAmount)
      __name__FeeBasisCreate)

/-- A concrete unit for the closed instantiations. -/
def sampleUnit : WKUnit := { name := "XTZ" }

/-- A concrete wallet with no tracked transfer. -/
def sampleWallet : WKWallet :=
  { transfers := [], balance := wkAmountCreateInteger 42 sampleUnit,
    unit := sampleUnit, unitForFee := sampleUnit }

/-- A concrete transfer for the closed instantiations. -/
def sampleTransfer : WKTransfer :=
  wkTransferCreateAs__SYMBOL__ "u1" sampleUnit sampleUnit
    { status := "confirmed",
      feeBasis := wkFeeBasisCreateAs__SYMBOL__ sampleUnit __name__FeeBasisCreate }
    (__name__TransactionCreate none none 0 __name__FeeBasisCreate)

/-- A well-formed concrete transfer bundle. -/
def sampleBundle : WKClientTransferBundle :=
  { hash := "h1", uids := "u1", fromAddress := some "unknown",
    toAddress := some "unknown", amount := "5", fee := none,
    status := "confirmed" }

/-- A concrete bundle whose amount is not numeric and whose hash text is
malformed (decodes to no hash). -/
def malformedBundle : WKClientTransferBundle :=
  { hash := "", uids := "u2", fromAddress := some "tz1bogus",
    toAddress := none, amount := "xyz", fee := some "q",
    status := "failed" }

/-! ### Helper lemmas -/

theorem length_updateTransferAt (ts : List WKTransfer) (i : Nat) (u : String)
    (st : WKTransferState) : (updateTransferAt ts i u st).length = ts.length := by
  induction ts generalizing i with
  | nil => rfl
  | cons t rest ih =>
      cases i with
      | zero => rfl
      | succ n => simpa [updateTransferAt] using ih n

theorem lookup_cons_none {t : WKTransfer} {ts : List WKTransfer}
    {h : Option String} {u : String}
    (hn : wkWalletGetTransferByHashOrUIDS (t :: ts) h u = none) :
    transferMatches t h u = false
      ∧ wkWalletGetTransferByHashOrUIDS ts h u = none := by
  by_cases hm : transferMatches t h u = true
  · simp [wkWalletGetTransferByHashOrUIDS, hm] at hn
  · refine ⟨Bool.eq_false_iff.mpr hm, ?_⟩
    simp only [wkWalletGetTransferByHashOrUIDS, Bool.eq_false_iff.mpr hm,
      if_false, Bool.false_eq_true, Option.map_eq_none'] at hn
    exact hn

theorem lookup_none_countP_zero (ts : List WKTransfer) (h : Option String)
    (u : String) (hn : wkWalletGetTransferByHashOrUIDS ts h u = none) :
    ts.countP (fun t => transferMatches t h u) = 0 := by
  induction ts with
  | nil => rfl
  | cons t rest ih =>
      obtain ⟨hm, hrest⟩ := lookup_cons_none hn
      simp [List.countP_cons, hm, ih hrest]

theorem lookup_append_single (ts : List WKTransfer) (t : WKTransfer)
    (h : Option String) (u : String)
    (hn : wkWalletGetTransferByHashOrUIDS ts h u = none)
    (hm : transferMatches t h u = true) :
    wkWalletGetTransferByHashOrUIDS (ts ++ [t]) h u = some ts.length := by
  induction ts with
  | nil => simp [wkWalletGetTransferByHashOrUIDS, hm]
  | cons t' rest ih =>
      obtain ⟨hm', hrest⟩ := lookup_cons_none hn
      simp [wkWalletGetTransferByHashOrUIDS, hm', ih hrest]

theorem updateTransferAt_append_at_length (ts : List WKTransfer)
    (t : WKTransfer) (u : String) (st : WKTransferState) :
    updateTransferAt (ts ++ [t]) ts.length u st
      = ts ++ [{ t with uids := u, state := st }] := by
  induction ts with
  | nil => rfl
  | cons t' rest ih => simp [updateTransferAt, ih]

theorem recover_not_found (junk : Nat) (w : WKWallet)
    (b : WKClientTransferBundle)
    (hn : wkWalletGetTransferByHashOrUIDS w.transfers (bundleHash b) b.uids
        = none) :
    wkWalletManagerRecoverTransferFromTransferBundle__SYMBOL__ junk w b
      = { w with transfers := w.transfers ++ [bundleTransfer junk w b] } := by
  simp only [bundleHash] at hn
  simp only [wkWalletManagerRecoverTransferFromTransferBundle__SYMBOL__,
    wkWalletManagerRecoverTransferAttributesFromTransferBundle, hn]
  rfl

theorem recover_found (junk : Nat) (w : WKWallet) (b : WKClientTransferBundle)
    (i : Nat)
    (hf : wkWalletGetTransferByHashOrUIDS w.transfers (bundleHash b) b.uids
        = some i) :
    wkWalletManagerRecoverTransferFromTransferBundle__SYMBOL__ junk w b
      = { w with transfers := updateTransferAt w.transfers i b.uids (bundleState w b) } := by
  simp only [bundleHash] at hf
  simp only [wkWalletManagerRecoverTransferFromTransferBundle__SYMBOL__,
    wkWalletManagerRecoverTransferAttributesFromTransferBundle, hf]
  rfl

/-! ### Claim theorems -/

/-- C9: the fee-sink sentinel and the unknown sentinel are the same address
value: the two created sentinel addresses are equal under address equality,
and every address is a fee address exactly when it is an unknown address. -/
theorem C9_fee_and_unknown_sentinels_coincide :
    __name__AddressEqual __name__AddressCreateFeeAddress
        __name__AddressCreateUnknownAddress = true
      ∧ ∀ a : BR__Name__Address,
          __name__AddressIsFeeAddress a = __name__AddressIsUnknownAddress a :=
  ⟨rfl, fun _ => rfl⟩

/-- C4: decoding a null or empty address string yields the unknown sentinel
in non-strict mode and no address at all (NULL) in strict mode. -/
theorem C4_empty_input_decoding :
    __name__AddressCreateFromString none false
        = some __name__AddressCreateUnknownAddress
      ∧ __name__AddressCreateFromString (some "") false
        = some __name__AddressCreateUnknownAddress
      ∧ __name__AddressCreateFromString none true = none
      ∧ __name__AddressCreateFromString (some "") true = none :=
  ⟨rfl, by decide, rfl, by decide⟩

/-- C3 counterexample: the claim says encoding the unknown address yields
the token "unknown"; on the code it yields "__fee__", because the fee-sink
check runs first and the two sentinels share the all-zero payload. -/
theorem C3_counterexample :
    __name__AddressAsString __name__AddressCreateUnknownAddress
      ≠ some "unknown" := by
  decide

/-- C3 amended: encoding the fee-sink address yields "__fee__"; encoding
the unknown address also yields "__fee__" (the sentinels share the all-zero
payload and the fee-sink branch is checked first); decoding "__fee__" in
non-strict mode yields the fee sentinel, decoding "unknown" yields the
unknown sentinel, and the two sentinels are the same address value. -/
theorem C3_sentinel_tokens :
    __name__AddressAsString __name__AddressCreateFeeAddress = some "__fee__"
      ∧ __name__AddressAsString __name__AddressCreateUnknownAddress
        = some "__fee__"
      ∧ __name__AddressCreateFromString (some "__fee__") false
        = some __name__AddressCreateFeeAddress
      ∧ __name__AddressCreateFromString (some "unknown") false
        = some __name__AddressCreateUnknownAddress
      ∧ __name__AddressEqual __name__AddressCreateFeeAddress
        __name__AddressCreateUnknownAddress = true :=
  ⟨rfl, rfl, by decide, by decide, rfl⟩

/-- C5 counterexample: the distinct texts "unknown" and "__fee__" both
decode successfully in non-strict mode, to addresses with the same byte
payload — decoding is not injective on texts. -/
theorem C5_counterexample :
    "unknown" ≠ "__fee__"
      ∧ __name__AddressCreateFromString (some "unknown") false
        = some __name__AddressCreateUnknownAddress
      ∧ __name__AddressCreateFromString (some "__fee__") false
        = some __name__AddressCreateFeeAddress
      ∧ __name__AddressCreateUnknownAddress.bytes
        = __name__AddressCreateFeeAddress.bytes := by
  refine ⟨by decide, by decide, by decide, rfl⟩

/-- C5 amended: address equality is exactly byte-for-byte comparison of the
payloads, and strict decoding succeeds on no text (so no two distinct
strict encodings exist); but in non-strict mode two distinct texts — the
sentinel tokens — decode to the same byte payload, so decoding is not
injective on texts. -/
theorem C5_equality_is_bytes_decode_not_injective :
    (∀ a b : BR__Name__Address,
        __name__AddressEqual a b = (a.bytes == b.bytes))
      ∧ (∀ s : String, __name__AddressCreateFromString (some s) true = none)
      ∧ (∃ s1 s2 : String, s1 ≠ s2
          ∧ ∃ a1 a2 : BR__Name__Address,
              __name__AddressCreateFromString (some s1) false = some a1
              ∧ __name__AddressCreateFromString (some s2) false = some a2
              ∧ a1.bytes = a2.bytes) := by
  refine ⟨fun a b => rfl, ?_, ?_⟩
  · intro s
    by_cases h : s.length == 0 <;>
      simp [__name__AddressCreateFromString, __name__AddressStringToAddress, h]
  · exact ⟨"unknown", "__fee__", by decide,
      __name__AddressCreateUnknownAddress, __name__AddressCreateFeeAddress,
      by decide, by decide, rfl⟩

/-- C10: estimate-limit returns the wallet's balance when asMaximum is true
and the integer amount 0 of the given unit when it is false, and both
output flags come back exactly as the caller's variables held them (they
are never written). -/
theorem C10_estimate_limit (wallet : WKWallet) (ne iz : Bool) (unit : WKUnit) :
    (wkWalletManagerEstimateLimit__SYMBOL__ wallet true ne iz unit).amount
        = wkWalletGetBalance wallet
      ∧ (wkWalletManagerEstimateLimit__SYMBOL__ wallet false ne iz unit).amount
        = wkAmountCreateInteger 0 unit
      ∧ ∀ asMaximum : Bool,
          (wkWalletManagerEstimateLimit__SYMBOL__ wallet asMaximum ne iz
              unit).needEstimate = ne
          ∧ (wkWalletManagerEstimateLimit__SYMBOL__ wallet asMaximum ne iz
              unit).isZeroIfInsuffientFunds = iz :=
  ⟨rfl, rfl, fun _ => ⟨rfl, rfl⟩⟩

/-- C6 counterexample: with `consumed_gas`, `storage_size` and `counter`
all present and numeric (counter 7), the claim demands a fee basis whose
counter is 8; the live recover-fee-basis-from-estimate (its parsing sits in
a disabled block) returns the default initial fee basis, which records no
counter at all. -/
theorem C6_counterexample :
    ((wkWalletManagerRecoverFeeBasisFromFeeEstimate__SYMBOL__
          { pricePerCostFactor := 100, pricePerCostFactorUnit := sampleUnit }
          ["consumed_gas", "storage_size", "counter"]
          ["5", "3", "7"]).__symbol__FeeBasis).counterValue
      ≠ some 8 := by
  decide

/-- C6 amended: recover-fee-basis-from-estimate ignores the attribute list
entirely and never fails: for every attribute list it returns the default
initial-stage fee basis wrapped with the network fee's unit.  The helper
cwmParseUInt64 flags an error only for an absent (NULL) string; a present
non-numeric value parses as 0 with the error flag untouched. -/
theorem C6_default_fee_basis (networkFee : WKNetworkFee)
    (attributeKeys attributeVals : List String) (error : Bool) :
    wkWalletManagerRecoverFeeBasisFromFeeEstimate__SYMBOL__ networkFee
        attributeKeys attributeVals
      = { unit := networkFee.pricePerCostFactorUnit,
          __symbol__FeeBasis := BR__Name__FeeBasis.initial }
      ∧ cwmParseUInt64 none error = (0, true)
      ∧ cwmParseUInt64 (some "not-a-number") error = (0, error) :=
  ⟨rfl, rfl, by cases error <;> decide⟩

/-- C7 counterexample: sign-with-key is not signaled by a status value —
its body is `assert(0); return WK_FALSE;`, a failing assertion on a
reachable path, contradicting "no reachable code path triggers a failing
assertion". -/
theorem C7_counterexample :
    (wkWalletManagerSignTransactionWithKey__SYMBOL__ sampleWallet
        sampleTransfer { id := 0 }).assertionFailed = true :=
  rfl

/-- C7 amended: wallet sweeping is signaled via the explicit status value
WK_WALLET_SWEEPER_UNSUPPORTED_CURRENCY with no assertion; but sign-with-key
and transaction-bundle recovery each trigger a failing assertion
(`assert(0)`) on every input — only in assert-disabled builds do they fall
through to WK_FALSE respectively to returning nothing. -/
theorem C7_unsupported_operation_signalling :
    (∀ (w : WKWallet) (k : WKKey),
        wkWalletManagerWalletSweeperValidateSupported__SYMBOL__ w k
          = { assertionFailed := false,
              value := WKWalletSweeperStatus.unsupportedCurrency })
      ∧ (∀ (w : WKWallet) (t : WKTransfer) (k : WKKey),
          wkWalletManagerSignTransactionWithKey__SYMBOL__ w t k
            = { assertionFailed := true, value := false })
      ∧ (∀ b : WKClientTransactionBundle,
          wkWalletManagerRecoverTransfersFromTransactionBundle__SYMBOL__ b
            = { assertionFailed := true, value := () }) :=
  ⟨fun _ _ => rfl, fun _ _ _ => rfl, fun _ => rfl⟩

/-- C8 counterexample: for the hash "abc" the encoder produces no text at
all (the live wkNetworkEncodeHash returns NULL for every hash), so no text
exists that decodes back to the hash — the hash half of the round-trip
claim fails. -/
theorem C8_counterexample :
    ¬ ∃ s : String, wkNetworkEncodeHash__SYMBOL__ "abc" = some s
        ∧ wkHashCreateFromStringAs__SYMBOL__ s = some "abc" := by
  rintro ⟨s, h, -⟩
  exact Option.noConfusion h

/-- C8 amended: whenever encoding an address produces a text (only the
sentinel-payload addresses do), decoding that text in non-strict mode
yields an address equal to the original; hash encoding produces no text for
any hash, so no hash round-trip exists. -/
theorem C8_roundtrip :
    (∀ (a : BR__Name__Address) (s : String),
        __name__AddressAsString a = some s →
          ∃ a' : BR__Name__Address,
            __name__AddressCreateFromString (some s) false = some a'
            ∧ __name__AddressEqual a' a = true)
      ∧ ∀ h : String, wkNetworkEncodeHash__SYMBOL__ h = none := by
  constructor
  · intro a s hs
    by_cases hb : a.bytes = 0
    · have hfee : s = "__fee__" := by
        simp [__name__AddressAsString, __name__AddressIsFeeAddress,
          feeAddressBytes, hb] at hs
        exact hs.symm
      subst hfee
      refine ⟨__name__AddressCreateFeeAddress, by decide, ?_⟩
      simp [__name__AddressEqual, __name__AddressCreateFeeAddress,
        feeAddressBytes, hb]
    · exfalso
      simp [__name__AddressAsString, __name__AddressIsFeeAddress,
        __name__AddressIsUnknownAddress, feeAddressBytes, unknownAddressBytes,
        hb] at hs
  · intro _
    rfl

/-- C8 witness: the amended round-trip applied at the fee-sink address and
its produced text "__fee__". -/
theorem C8_roundtrip_witness :
    ∃ a' : BR__Name__Address,
      __name__AddressCreateFromString (some "__fee__") false = some a'
      ∧ __name__AddressEqual a' __name__AddressCreateFeeAddress = true :=
  C8_roundtrip.1 __name__AddressCreateFeeAddress "__fee__" rfl

/-- C1: reconciliation is idempotent.  Starting from a wallet in which no
transfer matches the bundle's (hash, uids) identity, applying
recover-transfer-from-transfer-bundle twice with the same bundle leaves the
wallet exactly as after the first application — the second application only
rewrites the matched transfer's uids and state with the same values, adding
nothing — and exactly one tracked transfer matches the bundle's hash/uids
afterwards.  (`junk1`/`junk2` are the indeterminate sscanf fallback values;
the result does not depend on them.) -/
theorem C1_reconciliation_idempotent (junk1 junk2 : Nat) (w : WKWallet)
    (b : WKClientTransferBundle)
    (hnone : wkWalletGetTransferByHashOrUIDS w.transfers (bundleHash b) b.uids
        = none) :
    wkWalletManagerRecoverTransferFromTransferBundle__SYMBOL__ junk2
        (wkWalletManagerRecoverTransferFromTransferBundle__SYMBOL__ junk1 w b) b
      = wkWalletManagerRecoverTransferFromTransferBundle__SYMBOL__ junk1 w b
    ∧ ((wkWalletManagerRecoverTransferFromTransferBundle__SYMBOL__ junk2
          (wkWalletManagerRecoverTransferFromTransferBundle__SYMBOL__ junk1 w b)
          b).transfers.countP
        (fun t => transferMatches t (bundleHash b) b.uids)) = 1 := by
  obtain ⟨ts, bal, u, uf⟩ := w
  dsimp only at hnone ⊢
  have h1 := recover_not_found junk1 ⟨ts, bal, u, uf⟩ b hnone
  have hmatch : transferMatches (bundleTransfer junk1 ⟨ts, bal, u, uf⟩ b)
      (bundleHash b) b.uids = true := by
    cases hb : bundleHash b <;>
      simp [bundleTransfer, wkTransferCreateAs__SYMBOL__, transferMatches]
  have hlookup2 : wkWalletGetTransferByHashOrUIDS
      (ts ++ [bundleTransfer junk1 ⟨ts, bal, u, uf⟩ b]) (bundleHash b) b.uids
      = some ts.length :=
    lookup_append_single ts _ _ _ hnone hmatch
  have h2 := recover_found junk2
    ⟨ts ++ [bundleTransfer junk1 ⟨ts, bal, u, uf⟩ b], bal, u, uf⟩ b
    ts.length hlookup2
  have hupd : updateTransferAt (ts ++ [bundleTransfer junk1 ⟨ts, bal, u, uf⟩ b])
      ts.length b.uids
      (bundleState ⟨ts ++ [bundleTransfer junk1 ⟨ts, bal, u, uf⟩ b], bal, u, uf⟩ b)
      = ts ++ [bundleTransfer junk1 ⟨ts, bal, u, uf⟩ b] := by
    rw [updateTransferAt_append_at_length]
    rfl
  dsimp only at h1 h2
  rw [hupd] at h2
  rw [h1, h2]
  refine ⟨rfl, ?_⟩
  rw [List.countP_append, lookup_none_countP_zero ts _ _ hnone]
  simp [hmatch]

/-- C1 witness: the idempotence theorem applied at a concrete empty wallet
and a concrete bundle. -/
theorem C1_reconciliation_idempotent_witness :
    wkWalletManagerRecoverTransferFromTransferBundle__SYMBOL__ 1
        (wkWalletManagerRecoverTransferFromTransferBundle__SYMBOL__ 0
          sampleWallet sampleBundle) sampleBundle
      = wkWalletManagerRecoverTransferFromTransferBundle__SYMBOL__ 0
          sampleWallet sampleBundle
    ∧ ((wkWalletManagerRecoverTransferFromTransferBundle__SYMBOL__ 1
          (wkWalletManagerRecoverTransferFromTransferBundle__SYMBOL__ 0
            sampleWallet sampleBundle) sampleBundle).transfers.countP
        (fun t => transferMatches t (bundleHash sampleBundle)
          sampleBundle.uids)) = 1 :=
  C1_reconciliation_idempotent 0 1 sampleWallet sampleBundle rfl

/-- C2 counterexample: `malformedBundle` has a non-numeric amount ("xyz")
and a hash text that decodes to no hash; the claim says the reconciler
returns without modifying the wallet for such a bundle, yet applied to the
empty wallet it records a transfer.  Moreover the nonempty address string
"tz1bogus", which fails validation, is not mapped to the unknown sentinel:
non-strict decoding yields no address at all. -/
theorem C2_counterexample :
    (wkWalletManagerRecoverTransferFromTransferBundle__SYMBOL__ 7 sampleWallet
        malformedBundle).transfers.length = 1
      ∧ __name__AddressCreateFromString (some "tz1bogus") false
        ≠ some __name__AddressCreateUnknownAddress := by
  refine ⟨rfl, by decide⟩

/-- C2 amended: no bundle aborts reconciliation — on every input the
reconciler completes, either rewriting the matched transfer in place
(wallet size unchanged) or recording the bundle as one new transfer,
whatever the amount, hash or address texts contain; an absent or empty
address string maps to the unknown sentinel, while any other string (all of
which fail validation, decoding being unimplemented) yields no address, and
the bundle is still recorded. -/
theorem C2_no_bundle_abort (junk : Nat) (w : WKWallet)
    (b : WKClientTransferBundle) :
    ((wkWalletManagerRecoverTransferFromTransferBundle__SYMBOL__ junk w
          b).transfers.length = w.transfers.length
        ∨ (wkWalletManagerRecoverTransferFromTransferBundle__SYMBOL__ junk w
          b).transfers.length = w.transfers.length + 1)
      ∧ __name__AddressCreateFromString none false
        = some __name__AddressCreateUnknownAddress
      ∧ ∀ s : String, s.length ≠ 0 → s ≠ "unknown" → s ≠ "__fee__" →
          __name__AddressCreateFromString (some s) false = none := by
  refine ⟨?_, rfl, ?_⟩
  · cases hl : wkWalletGetTransferByHashOrUIDS w.transfers (bundleHash b)
        b.uids with
    | some i =>
        left
        rw [recover_found junk w b i hl]
        exact length_updateTransferAt w.transfers i b.uids (bundleState w b)
    | none =>
        right
        rw [recover_not_found junk w b hl]
        simp
  · intro s hlen hu hf
    simp [__name__AddressCreateFromString, __name__AddressStringToAddress,
      hlen, hu, hf]

/-- C2 witness: the amended claim applied at a concrete bundle and at the
concrete invalid address string "tz1bogus". -/
theorem C2_no_bundle_abort_witness :
    ((wkWalletManagerRecoverTransferFromTransferBundle__SYMBOL__ 7 sampleWallet
          malformedBundle).transfers.length = sampleWallet.transfers.length
        ∨ (wkWalletManagerRecoverTransferFromTransferBundle__SYMBOL__ 7
          sampleWallet malformedBundle).transfers.length
          = sampleWallet.transfers.length + 1)
      ∧ __name__AddressCreateFromString (some "tz1bogus") false = none :=
  ⟨(C2_no_bundle_abort 7 sampleWallet malformedBundle).1,
    (C2_no_bundle_abort 7 sampleWallet malformedBundle).2.2 "tz1bogus"
      (by decide) (by decide) (by decide)⟩
